import Mathlib

/-!
Verification of the `modular-transformers` repository: a shallow embedding of
`src/modular_transformers/models/gpt2/configuration_gpt2.py` and
`src/modular_transformers/train/mt_sweep.py`, with theorems settling the
specified properties of model configuration, the training loop's logging and
checkpointing schedule, gradient accumulation, and perplexity evaluation.
-/

/-! ## Model configuration (configuration_gpt2.py) -/

/-- Data carried by one attention sub-module as constructed in
`configuration_gpt2.py` line 38: `components.Attention(master_embd=n_embd,
n_embd=n_embd, n_head=n_head, bias=bias, dropout=drop, block_size=block_size)`. -/
structure Attention where
  master_embd : Nat
  n_embd : Nat
  n_head : Nat
  bias : Bool
  dropout : ℚ
  block_size : Nat
deriving DecidableEq

/-- Data carried by one feed-forward sub-module as constructed in
`configuration_gpt2.py` line 39 (`n_inner = None` means the 4x default). -/
structure MLP where
  master_embd : Nat
  n_inner : Option Nat
  bias : Bool
  dropout : ℚ
  activation : String
deriving DecidableEq

/-- One transformer block: an attention sub-module paired with a feed-forward
sub-module (`components.Block(attn, mlp)`, `configuration_gpt2.py` line 40). -/
structure Block where
  attn : Attention
  mlp : MLP
deriving DecidableEq

/-- Modelled from the spec: `modular_transformers.models.components.Attention`
is not under `src/`; per spec sections 4.1 and 8, constructing an attention
sub-module whose embedding width is not divisible by its head count must fail
fast with a configuration error before any weight allocation, and otherwise
succeeds. -/
def mkAttention (master_embd n_embd n_head : Nat) (bias : Bool) (dropout : ℚ)
    (block_size : Nat) : Except String Attention :=
  if n_embd % n_head = 0 then
    Except.ok (Attention.mk master_embd n_embd n_head bias dropout block_size)
  else
    Except.error "embedding width must be divisible by head count"

/-- Modelled from the spec: `modular_transformers.models.components.MLP` is not
under `src/`; the spec states no error condition for the feed-forward
sub-module, so its construction always succeeds. -/
def mkMLP (master_embd : Nat) (n_inner : Option Nat) (bias : Bool) (dropout : ℚ)
    (activation : String) : MLP :=
  MLP.mk master_embd n_inner bias dropout activation

/-- The model configuration assembled by `GPT2Config.__init__`
(`configuration_gpt2.py` lines 16-41): universal parameters plus the ordered
stack of blocks. -/
structure GPT2Config where
  vocab_size : Nat
  n_embd : Nat
  dropout : ℚ
  block_size : Nat
  blocks : List Block
deriving DecidableEq

/-- The block-construction loop of `GPT2Config.__init__`
(`configuration_gpt2.py` lines 37-41): each iteration builds one attention
sub-module and one feed-forward sub-module and appends the resulting block.
A configuration error raised by an attention constructor aborts the loop. -/
def buildBlocks (n_embd n_head : Nat) (bias : Bool) (drop : ℚ) (block_size : Nat)
    (n_inner : Option Nat) (activation : String) : Nat → Except String (List Block)
  | 0 => Except.ok []
  | n + 1 => do
    let attn ← mkAttention n_embd n_embd n_head bias drop block_size
    let mlp := mkMLP n_embd n_inner bias drop activation
    let rest ← buildBlocks n_embd n_head bias drop block_size n_inner activation n
    Except.ok (Block.mk attn mlp :: rest)

/-- `GPT2Config.__init__` (`configuration_gpt2.py` lines 16-41): takes the
universal parameters (vocabulary size, embedding width, dropout, context
length); the per-block parameters are hardcoded inside the constructor:
`n_head = 12`, `n_layer = 12`, `bias = True`, `n_inner = None`, GELU
activation.  There is no layer-count parameter. -/
def mkGPT2Config (vocab_size n_embd : Nat) (drop : ℚ) (block_size : Nat) :
    Except String GPT2Config := do
  let n_head := 12
  let n_layer := 12
  let bias := true
  let n_inner : Option Nat := none
  let blocks ← buildBlocks n_embd n_head bias drop block_size n_inner "GELU" n_layer
  Except.ok (GPT2Config.mk vocab_size n_embd drop block_size blocks)

/-! ## Training script constants (mt_sweep.py) -/

/-- `mt_sweep.py` line 41. -/
def MAX_GPU_BATCH_SIZE : Nat := 32

/-- `mt_sweep.py` line 42. -/
def EVAL_BATCH_SIZE : Nat := 32

/-- `mt_sweep.py` line 43. -/
def CONTEXT_LENGTH : Nat := 1024

/-- `mt_sweep.py` line 80: `train_config` sets `num_epochs` to 17. -/
def NUM_EPOCHS : Nat := 17

/-- `mt_sweep.py` line 74: `batch_size = 64`, stored into
`train_config` as the configured batch size. -/
def configuredBatchSize : Nat := 64

/-- `mt_sweep.py` lines 47-49: the module-scope accelerator is constructed with
`gradient_accumulation_steps = 64 // MAX_GPU_BATCH_SIZE`, a hardcoded value
(the source comment calls the hardcoding "not ideal").  This is the value the
gradient-accumulation mechanism actually uses. -/
def acceleratorGradAccumSteps : Nat := 64 / MAX_GPU_BATCH_SIZE

/-- `mt_sweep.py` lines 100-102: when the configured batch size exceeds the
per-device cap, a local `gradient_accumulation_steps` variable is computed as
the quotient (it is never passed to the accelerator) and the working batch
size is capped.  Returns (the local quotient if assigned, the working batch
size). -/
def applyMicroBatchCap (configured : Nat) : Option Nat × Nat :=
  if MAX_GPU_BATCH_SIZE < configured then
    (some (configured / MAX_GPU_BATCH_SIZE), MAX_GPU_BATCH_SIZE)
  else
    (none, configured)

/-- A data loader as constructed in `mt_sweep.py`: the dataset it draws from,
its shuffle flag, and its batch size. -/
structure DataLoaderSpec where
  dataset : String
  shuffle : Bool
  batch_size : Nat
deriving DecidableEq

/-- `mt_sweep.py` lines 104-106: `DataLoader(grouped_pad_valid, shuffle=False,
batch_size=EVAL_BATCH_SIZE)`. -/
def eval_dataloader : DataLoaderSpec :=
  DataLoaderSpec.mk "grouped_pad_valid" false EVAL_BATCH_SIZE

/-- `mt_sweep.py` lines 107-109: `DataLoader(grouped_pad_train, shuffle=True,
batch_size=batch_size)` with the capped working batch size. -/
def train_dataloader : DataLoaderSpec :=
  DataLoaderSpec.mk "grouped_pad_train" true (applyMicroBatchCap configuredBatchSize).2

/-! ## Sweep driver and hyperparameter intake (mt_sweep.py) -/

/-- The hyperparameter values the external sweep controller exposes through
`tracker.config` (`mt_sweep.py` lines 113-115), together with the
`random_seed_num` parameter declared in the sweep grid. -/
structure TrackerConfig where
  bottleneck : Nat
  n_layer : Nat
  random_seed_num : Nat
deriving DecidableEq

/-- The training configuration dict of `mt_sweep.py` lines 78-84 plus the
`seed` entry added at line 119. -/
structure TrainConfig where
  lr : ℚ
  num_epochs : Nat
  correct_bias : Bool
  batch_size : Nat
  data : String
  seed : Nat
deriving DecidableEq

/-- The parameter grid declared in `sweep_configuration`
(`mt_sweep.py` lines 293-304): the value lists for `n_layer`, `bottleneck`
and `random_seed_num`. -/
structure SweepParameters where
  n_layer_values : List Nat
  bottleneck_values : List Nat
  random_seed_num_values : List Nat
deriving DecidableEq

/-- `mt_sweep.py` lines 297-303. -/
def sweep_configuration : SweepParameters :=
  SweepParameters.mk [5, 7] [788] [3, 4]

/-- `mt_sweep.py` lines 112-119: the run reads `bottleneck` and `n_layer` from
the sweep controller's `tracker.config`, then draws a seed with
`random.randint(1, 10000)` (modelled as the input `randDraw`) and stores that
draw into `train_config["seed"]`.  Returns (bottleneck width, layer count,
the completed TrainConfig). -/
def mainHyperparameterIntake (tracker : TrackerConfig) (randDraw : Nat) :
    Nat × Nat × TrainConfig :=
  let bottleneck_dim := tracker.bottleneck
  let n_layer := tracker.n_layer
  let seed := randDraw
  (bottleneck_dim, n_layer,
    TrainConfig.mk (6 / 10000) 17 true configuredBatchSize "100M" seed)

/-- The layer count a sweep run requests: `mt_sweep.py` line 115 reads it from
the sweep controller's configuration object. -/
def requestedLayerCount (tracker : TrackerConfig) : Nat :=
  tracker.n_layer

/-! ## Training-step operation order (mt_sweep.py lines 200-207) -/

/-- The operations appearing inside the `accelerator.accumulate(model)` block
of the training loop. -/
inductive TrainOp where
  | forward
  | backward
  | schedulerStep
  | optimizerStep
  | zeroGrad
deriving DecidableEq, BEq

/-- `mt_sweep.py` lines 200-207, in source order: forward pass, backward pass,
`lr_scheduler.step()`, `optimizer.step()`, `optimizer.zero_grad()`.  On the
micro-batch that reaches the gradient-accumulation threshold the accelerator
synchronizes gradients and all of these take effect, in this order. -/
def syncMicroBatchOps : List TrainOp :=
  [TrainOp.forward, TrainOp.backward, TrainOp.schedulerStep,
    TrainOp.optimizerStep, TrainOp.zeroGrad]

/-! ## Metric logging schedule (mt_sweep.py lines 186-237) -/

/-- One call to `accelerator.log`, recorded as the metric name and the `step`
keyword it was given. -/
structure LogEntry where
  name : String
  step : Nat
deriving DecidableEq

/-- `mt_sweep.py` line 224: evaluation runs every 200 steps. -/
def EVAL_INTERVAL : Nat := 200

/-- The `accelerator.log` calls issued for the training-loop iteration with
`absolute_step = s` (`mt_sweep.py` lines 213-235): four train metrics every
step, plus the two validation metrics when `s` is a multiple of 200. -/
def stepLogEntries (s : Nat) : List LogEntry :=
  [LogEntry.mk "train/train_loss" s, LogEntry.mk "train/epoch" s,
    LogEntry.mk "train/data_count" s, LogEntry.mk "train/learning_rate" s]
    ++ (if s % EVAL_INTERVAL = 0 then
          [LogEntry.mk "validation/valid_loss" s,
            LogEntry.mk "validation/valid_accuracy" s]
        else [])

/-- The metric log entries of a whole run, in emission order: `absolute_step`
is incremented once per batch (line 211) before the logging of that
iteration, so a run processing `totalSteps` batches emits the blocks for
steps 1, 2, ..., totalSteps in order. -/
def runLogEntries : Nat → List LogEntry
  | 0 => []
  | n + 1 => runLogEntries n ++ stepLogEntries (n + 1)

/-! ## Checkpointing schedule (mt_sweep.py lines 239-283) -/

/-- `mt_sweep.py` line 239: periodic checkpoints every 20000 steps. -/
def CHECKPOINT_INTERVAL : Nat := 20000

/-- A checkpoint directory path
`/om2/user/jackking/MyData/mt/miniberta_data/model_name/run_name/checkpoint_step`,
keyed by its four varying components (`mt_sweep.py` lines 240-242 and
263-265). -/
structure CkptPath where
  dataDir : String
  modelName : String
  runName : String
  step : Nat
deriving DecidableEq

/-- The checkpoint path the run writes at a given step: the data tag is fixed
to `miniberta_100M` (line 73) and the run name to `reg_loss` (line 133). -/
def checkpointPathFor (modelName : String) (step : Nat) : CkptPath :=
  CkptPath.mk "miniberta_100M" modelName "reg_loss" step

/-- The steps at which the loop body writes a periodic checkpoint during the
first `T` steps: those `s` with `1 ≤ s ≤ T` and `s % 20000 == 0`
(`mt_sweep.py` line 239), in the order they occur. -/
def periodicCheckpointSteps : Nat → List Nat
  | 0 => []
  | n + 1 =>
    periodicCheckpointSteps n
      ++ (if (n + 1) % CHECKPOINT_INTERVAL = 0 then [n + 1] else [])

/-- All checkpoint paths a run writes, in write order: the periodic
checkpoints during the `NUM_EPOCHS * B` loop iterations (`B` batches per
epoch), followed by the final checkpoint at the final value of
`absolute_step` (`mt_sweep.py` lines 262-283). -/
def runCheckpointPaths (modelName : String) (B : Nat) : List CkptPath :=
  (periodicCheckpointSteps (NUM_EPOCHS * B)).map (checkpointPathFor modelName)
    ++ [checkpointPathFor modelName (NUM_EPOCHS * B)]

/-! ## Perplexity evaluation (mt_sweep.py lines 53-69) -/

/-- The Python exceptions relevant to the `try/except` of `evaluate`
(lines 62-65): `OverflowError`, or any other exception. -/
inductive PyExc where
  | overflowError
  | other : String → PyExc
deriving DecidableEq

/-- The value of a floating-point scalar as returned by `.item()`: either a
finite value (modelled as a real number) or the IEEE infinity. -/
inductive EF where
  | fin : ℝ → EF
  | inf : EF

/-- The largest finite IEEE double, `(2^53 - 1) * 2^971`. -/
def maxFloat : ℝ := (2 ^ 53 - 1) * 2 ^ 971

open Classical in
/-- Model of the library call `torch.exp` on a scalar loss tensor: it returns
the exponential when that is representable and saturates to the IEEE infinity
when the exponential exceeds the largest finite double; it does not raise. -/
noncomputable def torchExp (x : ℝ) : EF :=
  if Real.exp x ≤ maxFloat then EF.fin (Real.exp x) else EF.inf

/-- The `try/except OverflowError` of `evaluate` (`mt_sweep.py` lines 62-65):
run the body; if it raised `OverflowError`, use `float("inf")` instead; any
other exception propagates. -/
def tryExceptOverflow (body : Except PyExc EF) : Except PyExc EF :=
  match body with
  | Except.ok v => Except.ok v
  | Except.error PyExc.overflowError => Except.ok EF.inf
  | Except.error e => Except.error e

/-- The perplexity computation of `evaluate` (`mt_sweep.py` lines 61-65):
`perplexity = torch.exp(loss)` guarded by the `except OverflowError`
handler.  `torch.exp` itself never raises, so the body is `Except.ok`. -/
noncomputable def computePerplexity (meanLoss : ℝ) : Except PyExc EF :=
  tryExceptOverflow (Except.ok (torchExp meanLoss))

/-- The return value of `evaluate` (`mt_sweep.py` line 69):
`(loss.item(), perplexity.item())` for the mean validation loss. -/
noncomputable def evaluateFn (meanLoss : ℝ) : Except PyExc (EF × EF) :=
  match computePerplexity meanLoss with
  | Except.ok p => Except.ok (EF.fin meanLoss, p)
  | Except.error e => Except.error e

/-- One `accelerator.log` call inside the periodic-evaluation block, recorded
with the metric value it carries. -/
structure ValEntry where
  name : String
  value : EF
  step : Nat

/-- The periodic-evaluation block (`mt_sweep.py` lines 224-235): binds
`valid_loss, valid_accuracy = evaluate(...)` and then logs
`validation/valid_loss` with the first component and
`validation/valid_accuracy` with the second component, both at the current
`absolute_step`. -/
noncomputable def evalBlockLogs (meanLoss : ℝ) (s : Nat) :
    Except PyExc (List ValEntry) :=
  match evaluateFn meanLoss with
  | Except.ok r =>
    Except.ok [ValEntry.mk "validation/valid_loss" r.1 s,
      ValEntry.mk "validation/valid_accuracy" r.2 s]
  | Except.error e => Except.error e

/-! ## Helper lemmas -/

/-- When the embedding width is divisible by the head count, every iteration of
the block-construction loop succeeds, and `n` iterations yield `n` blocks. -/
theorem buildBlocks_ok (n_embd n_head : Nat) (bias : Bool) (drop : ℚ)
    (block_size : Nat) (n_inner : Option Nat) (activation : String)
    (h : n_embd % n_head = 0) : ∀ n : Nat,
    ∃ l, buildBlocks n_embd n_head bias drop block_size n_inner activation n
        = Except.ok l ∧ l.length = n := by
  intro n
  induction n with
  | zero => exact ⟨[], rfl, rfl⟩
  | succ m ih =>
      obtain ⟨l, hl, hlen⟩ := ih
      refine ⟨Block.mk (Attention.mk n_embd n_embd n_head bias drop block_size)
        (mkMLP n_embd n_inner bias drop activation) :: l, ?_, by simp [hlen]⟩
      simp only [buildBlocks, mkAttention, if_pos h, hl]
      rfl

/-- When the embedding width is not divisible by the head count, the first
iteration of the block-construction loop already raises the configuration
error, so any positive number of requested iterations fails. -/
theorem buildBlocks_pos_err (n_embd n_head : Nat) (bias : Bool) (drop : ℚ)
    (block_size : Nat) (n_inner : Option Nat) (activation : String)
    (h : ¬ n_embd % n_head = 0) (n : Nat) (hn : 0 < n) :
    buildBlocks n_embd n_head bias drop block_size n_inner activation n
      = Except.error "embedding width must be divisible by head count" := by
  cases n with
  | zero => exact absurd hn (by decide)
  | succ m =>
      simp only [buildBlocks, mkAttention, if_neg h]
      rfl

/-- A step is in the periodic checkpoint schedule for the first `T` steps
exactly when it lies in `1..T` and is a multiple of the checkpoint interval. -/
theorem mem_periodicCheckpointSteps (s : Nat) : ∀ T : Nat,
    s ∈ periodicCheckpointSteps T
      ↔ 1 ≤ s ∧ s ≤ T ∧ s % CHECKPOINT_INTERVAL = 0 := by
  intro T
  induction T with
  | zero =>
      simp only [periodicCheckpointSteps, List.not_mem_nil, false_iff]
      omega
  | succ n ih =>
      simp only [periodicCheckpointSteps, List.mem_append, ih]
      by_cases h : (n + 1) % CHECKPOINT_INTERVAL = 0
      · simp only [if_pos h, List.mem_singleton]
        constructor
        · rintro (⟨h1, h2, h3⟩ | rfl)
          · exact ⟨h1, Nat.le_succ_of_le h2, h3⟩
          · exact ⟨Nat.succ_le_succ (Nat.zero_le n), Nat.le_refl _, h⟩
        · rintro ⟨h1, h2, h3⟩
          rcases Nat.lt_or_ge s (n + 1) with hlt | hge
          · exact Or.inl ⟨h1, Nat.lt_succ_iff.mp hlt, h3⟩
          · exact Or.inr (Nat.le_antisymm h2 hge)
      · simp only [if_neg h, List.not_mem_nil, or_false]
        constructor
        · rintro ⟨h1, h2, h3⟩
          exact ⟨h1, Nat.le_succ_of_le h2, h3⟩
        · rintro ⟨h1, h2, h3⟩
          refine ⟨h1, ?_, h3⟩
          rcases Nat.lt_or_ge s (n + 1) with hlt | hge
          · exact Nat.lt_succ_iff.mp hlt
          · exact absurd h3 (by rw [Nat.le_antisymm h2 hge] at h3 ⊢; exact h)

/-- The periodic checkpoint steps are pairwise distinct. -/
theorem periodicCheckpointSteps_nodup : ∀ T : Nat,
    (periodicCheckpointSteps T).Nodup := by
  intro T
  induction T with
  | zero => exact List.nodup_nil
  | succ n ih =>
      rw [periodicCheckpointSteps, List.nodup_append]
      refine ⟨ih, ?_, ?_⟩
      · by_cases h : (n + 1) % CHECKPOINT_INTERVAL = 0
        · rw [if_pos h]; exact List.nodup_singleton _
        · rw [if_neg h]; exact List.nodup_nil
      · intro a ha hb
        have h1 := (mem_periodicCheckpointSteps a n).mp ha
        by_cases h : (n + 1) % CHECKPOINT_INTERVAL = 0
        · rw [if_pos h, List.mem_singleton] at hb
          omega
        · rw [if_neg h] at hb
          exact (List.not_mem_nil a) hb

/-- Within one run, checkpoint paths differ exactly when their step counts
differ. -/
theorem checkpointPathFor_inj (m : String) :
    Function.Injective (checkpointPathFor m) := by
  intro a b h
  simpa [checkpointPathFor, CkptPath.mk.injEq] using h

/-- The step index attached to each log entry of one loop iteration is that
iteration's `absolute_step`. -/
theorem step_mem_stepLogEntries (s x : Nat) :
    x ∈ (stepLogEntries s).map LogEntry.step ↔ x = s := by
  by_cases h : s % EVAL_INTERVAL = 0 <;>
    simp [stepLogEntries, h, List.mem_map, or_comm]

/-- The step indices logged during the first `T` loop iterations are exactly
`1..T`. -/
theorem mem_runLogEntries_step (x : Nat) : ∀ T : Nat,
    x ∈ (runLogEntries T).map LogEntry.step ↔ 1 ≤ x ∧ x ≤ T := by
  intro T
  induction T with
  | zero =>
      simp only [runLogEntries, List.map_nil, List.not_mem_nil, false_iff]
      omega
  | succ n ih =>
      simp only [runLogEntries, List.map_append, List.mem_append, ih,
        step_mem_stepLogEntries]
      omega

/-- A list whose elements are all equal is sorted under `≤`. -/
theorem pairwise_le_of_all_eq (c : Nat) : ∀ l : List Nat,
    (∀ a ∈ l, a = c) → l.Pairwise (fun a b => a ≤ b) := by
  intro l
  induction l with
  | nil => intro _; exact List.Pairwise.nil
  | cons a l ih =>
      intro h
      refine List.Pairwise.cons (fun b hb => ?_)
        (ih fun b hb => h b (List.mem_cons_of_mem a hb))
      rw [h a (List.mem_cons_self a l), h b (List.mem_cons_of_mem a hb)]

/-! ## Claim C1 -/

/-- C1 counterexample: the sweep requests a layer count of 5 (a value of
`n_layer` in `sweep_configuration`, read by `mt_sweep.py` line 115), the
(embedding width, head count) pair (768, 12) is valid, and `GPT2Config`
construction succeeds — yet the resulting stack has 12 blocks, not the
requested 5: `GPT2Config.__init__` hardcodes `n_layer = 12` and takes no
layer-count parameter, so the stack length does not match the requested
layer count. -/
theorem gpt2config_ignores_requested_layers :
    requestedLayerCount (TrackerConfig.mk 788 5 3) = 5
    ∧ 5 ∈ sweep_configuration.n_layer_values
    ∧ 768 % 12 = 0
    ∧ (mkGPT2Config 50257 768 (1 / 10) 1024).map (fun c => c.blocks.length)
        = Except.ok 12
    ∧ (12 : Nat) ≠ 5 :=
  ⟨rfl, by decide, by decide, by rfl, by decide⟩

/-- C1 (amended): for every embedding width divisible by the hardcoded head
count 12, `GPT2Config` construction succeeds and the resulting ordered stack
of blocks always has length 12 — the layer count hardcoded in the
constructor, independent of any requested value. -/
theorem gpt2config_fixed_layer_count (vocab_size n_embd : Nat) (drop : ℚ)
    (block_size : Nat) (h : n_embd % 12 = 0) :
    ∃ cfg, mkGPT2Config vocab_size n_embd drop block_size = Except.ok cfg
      ∧ cfg.blocks.length = 12 := by
  obtain ⟨l, hl, hlen⟩ := buildBlocks_ok n_embd 12 true drop block_size none "GELU" h 12
  exact ⟨GPT2Config.mk vocab_size n_embd drop block_size l,
    by simp only [mkGPT2Config, hl]; rfl, hlen⟩

/-- C1 witness: the default parameters (50257, 768, 0.1, 1024) form a valid
configuration and yield a 12-block stack. -/
theorem gpt2config_fixed_layer_count_witness :
    768 % 12 = 0
    ∧ ∃ cfg, mkGPT2Config 50257 768 (1 / 10) 1024 = Except.ok cfg
        ∧ cfg.blocks.length = 12 :=
  ⟨by decide, gpt2config_fixed_layer_count 50257 768 (1 / 10) 1024 (by decide)⟩

/-! ## Claim C2 -/

/-- C2 counterexample: the claimed operation order — optimizer step, then
gradient clearing, then scheduler step — does not hold for the operation
sequence of `mt_sweep.py` lines 200-207: `optimizer.zero_grad()` does not
precede `lr_scheduler.step()`, because the scheduler step is written first. -/
theorem train_step_order_counterexample :
    ¬ (syncMicroBatchOps.indexOf TrainOp.optimizerStep
          < syncMicroBatchOps.indexOf TrainOp.zeroGrad
        ∧ syncMicroBatchOps.indexOf TrainOp.zeroGrad
          < syncMicroBatchOps.indexOf TrainOp.schedulerStep) := by decide

/-- C2 (amended): once the gradient-accumulation threshold is reached, the
operations take effect in the order: learning-rate scheduler advanced (exactly
one `lr_scheduler.step()` call occurs), then optimizer step applied, then
gradients cleared. -/
theorem train_step_effect_order :
    syncMicroBatchOps.indexOf TrainOp.schedulerStep
        < syncMicroBatchOps.indexOf TrainOp.optimizerStep
    ∧ syncMicroBatchOps.indexOf TrainOp.optimizerStep
        < syncMicroBatchOps.indexOf TrainOp.zeroGrad
    ∧ syncMicroBatchOps.count TrainOp.schedulerStep = 1 := by decide

/-! ## Claim C3 -/

/-- C3 counterexample: with the sweep controller supplying
`random_seed_num = 3` (a declared sweep value) and the local
`random.randint(1, 10000)` call drawing 42, the seed stored in TrainConfig is
42, not the sweep-supplied 3: `mt_sweep.py` line 117 draws the seed locally
and never reads `random_seed_num` from the tracker config. -/
theorem seed_not_sweep_supplied :
    3 ∈ sweep_configuration.random_seed_num_values
    ∧ (mainHyperparameterIntake (TrackerConfig.mk 788 5 3) 42).2.2.seed = 42
    ∧ (mainHyperparameterIntake (TrackerConfig.mk 788 5 3) 42).2.2.seed
        ≠ (TrackerConfig.mk 788 5 3).random_seed_num := by decide

/-- C3 (amended): the Sweep Driver receives the layer count and bottleneck
width from the external sweep controller's configuration object, but the
TrainConfig's random seed is the locally drawn `random.randint(1, 10000)`
value, not a sweep-supplied one. -/
theorem hyperparameter_intake (tracker : TrackerConfig) (randDraw : Nat) :
    (mainHyperparameterIntake tracker randDraw).1 = tracker.bottleneck
    ∧ (mainHyperparameterIntake tracker randDraw).2.1 = tracker.n_layer
    ∧ (mainHyperparameterIntake tracker randDraw).2.2.seed = randDraw :=
  ⟨rfl, rfl, rfl⟩

/-! ## Claim C4 -/

/-- C4: for every mean validation loss, the perplexity computation of
`evaluate` never propagates an exception; when `exp(loss)` is representable
the result is `exp(loss)`; when `exp(loss)` would overflow the result is the
infinite sentinel; and even a raised `OverflowError` would be converted by
the handler into the infinite sentinel rather than escaping. -/
theorem perplexity_overflow_contract (meanLoss : ℝ) :
    (∃ p, computePerplexity meanLoss = Except.ok p)
    ∧ (Real.exp meanLoss ≤ maxFloat →
        computePerplexity meanLoss = Except.ok (EF.fin (Real.exp meanLoss)))
    ∧ (maxFloat < Real.exp meanLoss →
        computePerplexity meanLoss = Except.ok EF.inf)
    ∧ tryExceptOverflow (Except.error PyExc.overflowError) = Except.ok EF.inf := by
  refine ⟨⟨torchExp meanLoss, rfl⟩, fun h => ?_, fun h => ?_, rfl⟩
  · show Except.ok (torchExp meanLoss) = _
    rw [torchExp, if_pos h]
  · show Except.ok (torchExp meanLoss) = _
    rw [torchExp, if_neg (not_le.mpr h)]

/-- C4 witness: at loss 0 the exponential is finite and the computed
perplexity is `exp 0`. -/
theorem perplexity_overflow_contract_witness :
    Real.exp 0 ≤ maxFloat
    ∧ computePerplexity 0 = Except.ok (EF.fin (Real.exp 0)) := by
  have h : Real.exp 0 ≤ maxFloat := by
    rw [Real.exp_zero, maxFloat]
    norm_num
  exact ⟨h, (perplexity_overflow_contract 0).2.1 h⟩

/-! ## Claim C5 -/

/-- C5: for every embedding width not divisible by the (hardcoded) head count
12, `GPT2Config` construction fails with the configuration error raised by
the attention constructor, so no configuration object — and hence no
parameter allocation — is produced. -/
theorem gpt2config_invalid_width_fails (vocab_size n_embd : Nat) (drop : ℚ)
    (block_size : Nat) (h : ¬ n_embd % 12 = 0) :
    mkGPT2Config vocab_size n_embd drop block_size
      = Except.error "embedding width must be divisible by head count" := by
  have hb := buildBlocks_pos_err n_embd 12 true drop block_size none "GELU" h 12 (by decide)
  simp only [mkGPT2Config, hb]
  rfl

/-- C5 witness: embedding width 770 is not divisible by 12 and construction
fails with the configuration error. -/
theorem gpt2config_invalid_width_fails_witness :
    ¬ 770 % 12 = 0
    ∧ mkGPT2Config 50257 770 (1 / 10) 1024
        = Except.error "embedding width must be divisible by head count" :=
  ⟨by decide, gpt2config_invalid_width_fails 50257 770 (1 / 10) 1024 (by decide)⟩

/-! ## Claim C6 -/

/-- C6 counterexample: in a run with 20000 batches per epoch (total step count
17 * 20000 = 340000, a multiple of the 20000-step checkpoint interval), the
final checkpoint is written to the same path as the last periodic checkpoint,
so the sequence of checkpoint paths contains a duplicate: the final write
mutates an already-written checkpoint instead of superseding it at a distinct
path. -/
theorem checkpoint_final_overwrites_periodic :
    ¬ (runCheckpointPaths "768-768-768-768-768" 20000).Nodup := by
  intro h
  rw [runCheckpointPaths, List.nodup_append] at h
  have hmem : (NUM_EPOCHS * 20000) ∈ periodicCheckpointSteps (NUM_EPOCHS * 20000) :=
    (mem_periodicCheckpointSteps _ _).mpr (by decide)
  exact h.2.2 (List.mem_map_of_mem _ hmem) (List.mem_singleton_self _)

/-- C6 (amended): the periodic checkpoints of a run are all written at
pairwise distinct paths (keyed by step count) and are never rewritten by a
later periodic write; and whenever the run's total step count is not a
multiple of the checkpoint interval, the final checkpoint too supersedes them
at a fresh path, so no checkpoint is ever mutated.  (When the total step
count is a multiple of the interval, the final write reuses the last periodic
path — the case of the counterexample.) -/
theorem checkpoint_paths_distinct (modelName : String) (B : Nat) :
    ((periodicCheckpointSteps (NUM_EPOCHS * B)).map (checkpointPathFor modelName)).Nodup
    ∧ ((NUM_EPOCHS * B) % CHECKPOINT_INTERVAL ≠ 0 →
        (runCheckpointPaths modelName B).Nodup) := by
  have hmap : ((periodicCheckpointSteps (NUM_EPOCHS * B)).map (checkpointPathFor modelName)).Nodup :=
    (periodicCheckpointSteps_nodup (NUM_EPOCHS * B)).map (checkpointPathFor_inj modelName)
  refine ⟨hmap, fun hT => ?_⟩
  rw [runCheckpointPaths, List.nodup_append]
  refine ⟨hmap, List.nodup_singleton _, ?_⟩
  intro p hp hps
  rw [List.mem_singleton] at hps
  subst hps
  obtain ⟨s, hs, hpeq⟩ := List.mem_map.mp hp
  have hse : s = NUM_EPOCHS * B := checkpointPathFor_inj modelName hpeq
  rw [hse] at hs
  exact hT ((mem_periodicCheckpointSteps (NUM_EPOCHS * B) (NUM_EPOCHS * B)).mp hs).2.2

/-- C6 witness: a run with one batch per epoch (17 total steps, not a
multiple of the checkpoint interval) writes all its checkpoints at distinct
paths. -/
theorem checkpoint_paths_distinct_witness :
    (NUM_EPOCHS * 1) % CHECKPOINT_INTERVAL ≠ 0
    ∧ (runCheckpointPaths "768-768-768-768-768" 1).Nodup :=
  ⟨by decide, (checkpoint_paths_distinct "768-768-768-768-768" 1).2 (by decide)⟩

/-! ## Claim C7 -/

/-- C7 counterexample: in a run with one batch per epoch (17 steps), the
logged metric step indices contain repeats — every loop iteration issues four
`accelerator.log` calls with the same `step` value — so the step indices of
logged metric entries are not free of repeats (hence not strictly
increasing entry-over-entry). -/
theorem log_steps_repeat_counterexample :
    ¬ ((runLogEntries (NUM_EPOCHS * 1)).map LogEntry.step).Nodup := by decide

/-- C7 (amended): across a run of `T` steps the step indices attached to
logged metric entries are emitted in non-decreasing order, and the set of
step indices that occur is exactly `1..T` with no gaps; each index repeats
(once per metric logged at that step) rather than occurring exactly once. -/
theorem log_steps_monotone_cover (T : Nat) :
    ((runLogEntries T).map LogEntry.step).Pairwise (fun a b => a ≤ b)
    ∧ ∀ s : Nat, s ∈ (runLogEntries T).map LogEntry.step ↔ 1 ≤ s ∧ s ≤ T := by
  refine ⟨?_, fun s => mem_runLogEntries_step s T⟩
  induction T with
  | zero => exact List.Pairwise.nil
  | succ n ih =>
      rw [runLogEntries, List.map_append, List.pairwise_append]
      refine ⟨ih, pairwise_le_of_all_eq (n + 1) _
        (fun a ha => (step_mem_stepLogEntries (n + 1) a).mp ha), ?_⟩
      intro a ha b hb
      have h1 := (mem_runLogEntries_step a n).mp ha
      have h2 := (step_mem_stepLogEntries (n + 1) b).mp hb
      omega

/-- C7 witness: in a 17-step run the logged steps are non-decreasing and step
3 is among them. -/
theorem log_steps_monotone_cover_witness :
    ((runLogEntries 17).map LogEntry.step).Pairwise (fun a b => a ≤ b)
    ∧ 3 ∈ (runLogEntries 17).map LogEntry.step :=
  ⟨(log_steps_monotone_cover 17).1,
    ((log_steps_monotone_cover 17).2 3).mpr (by decide)⟩

/-! ## Claim C8 -/

/-- C8: the configured batch size (64, `mt_sweep.py` line 74) exceeds the
per-device micro-batch cap (32), and the number of micro-batches accumulated
before each optimizer step by the mechanism actually in use — the accelerator
constructed at lines 47-49 — equals batch size divided by the cap (namely 2);
the quotient main computes at line 101 holds the same value. -/
theorem grad_accum_matches_configured_quotient :
    MAX_GPU_BATCH_SIZE < configuredBatchSize
    ∧ acceleratorGradAccumSteps = configuredBatchSize / MAX_GPU_BATCH_SIZE
    ∧ (applyMicroBatchCap configuredBatchSize).1 = some acceleratorGradAccumSteps
    ∧ acceleratorGradAccumSteps = 2 := by decide

/-! ## Claim C9 -/

/-- C9: the training-split loader is constructed with shuffling enabled and
the validation-split loader with shuffling disabled, on every run (the flags
are literals in `mt_sweep.py` lines 104-109). -/
theorem dataloader_shuffle_flags :
    train_dataloader.shuffle = true
    ∧ eval_dataloader.shuffle = false
    ∧ train_dataloader.dataset = "grouped_pad_train"
    ∧ eval_dataloader.dataset = "grouped_pad_valid" := by decide

/-! ## Claim C10 -/

/-- C10: `evaluate` returns the pair (mean loss, perplexity), and the
periodic-evaluation block logs exactly two metrics — the loss under
`validation/valid_loss` and the perplexity (the second component of
`evaluate`'s return) under the key `validation/valid_accuracy`; no logged
key is perplexity-named. -/
theorem valid_accuracy_logs_perplexity (meanLoss : ℝ) (s : Nat) :
    evaluateFn meanLoss = Except.ok (EF.fin meanLoss, torchExp meanLoss)
    ∧ ∃ entries, evalBlockLogs meanLoss s = Except.ok entries
      ∧ entries.map ValEntry.name
          = ["validation/valid_loss", "validation/valid_accuracy"]
      ∧ (∀ e ∈ entries, e.name = "validation/valid_accuracy" →
          e.value = torchExp meanLoss)
      ∧ (∀ e ∈ entries, e.name ≠ "validation/valid_perplexity"
          ∧ e.name ≠ "valid_perplexity" ∧ e.name ≠ "perplexity") := by
  refine ⟨rfl, [ValEntry.mk "validation/valid_loss" (EF.fin meanLoss) s,
    ValEntry.mk "validation/valid_accuracy" (torchExp meanLoss) s], rfl, rfl, ?_, ?_⟩
  · intro e he hn
    simp only [List.mem_cons, List.not_mem_nil, or_false] at he
    rcases he with he | he
    · rw [he] at hn; exact absurd hn (by simp)
    · rw [he]
  · intro e he
    simp only [List.mem_cons, List.not_mem_nil, or_false] at he
    rcases he with he | he
    · rw [he]; exact ⟨by simp, by simp, by simp⟩
    · rw [he]; exact ⟨by simp, by simp, by simp⟩

/-- C10 witness: at mean loss 0 and step 200 the evaluation block logs the
perplexity value under `validation/valid_accuracy`. -/
theorem valid_accuracy_logs_perplexity_witness :
    evaluateFn 0 = Except.ok (EF.fin 0, torchExp 0)
    ∧ ∃ entries, evalBlockLogs 0 200 = Except.ok entries
      ∧ entries.map ValEntry.name
          = ["validation/valid_loss", "validation/valid_accuracy"]
      ∧ (∀ e ∈ entries, e.name = "validation/valid_accuracy" →
          e.value = torchExp 0)
      ∧ (∀ e ∈ entries, e.name ≠ "validation/valid_perplexity"
          ∧ e.name ≠ "valid_perplexity" ∧ e.name ≠ "perplexity") :=
  valid_accuracy_logs_perplexity 0 200
